import Mathlib

/-!
Verification development for the TftpServer library (src/TftpServer.cpp,
src/TftpServer.h): a minimal TFTP (RFC 1350) server.  The definitions below
are shallow embeddings of the C++ source: bytes are `Nat` values below 256,
machine integers are `Nat`/`Int` with explicit wrap-around where the source
relies on it, the shared 516-byte scratch buffer `udpBuffer` is a
`List Nat` of length 516, and the blocking transaction loops become step
functions driven by an explicit event schedule (packet arrival, timeout
expiry, or an idle poll).
-/

set_option maxRecDepth 100000

namespace Tftp

/-! ## Constants (TftpServer.cpp lines 33-39, TftpServer.h lines 155-176) -/

def INITIAL_TIMEOUT : Nat := 50
def TIMEOUT_MIN : Nat := 50
def TIMEOUT_MAX : Nat := 10000
def MAX_RETRANSMISSIONS : Nat := 8
def UDP_BUFFER_SIZE : Nat := 516

/-- Opcode `RRQ = 1`. -/
def RRQ : Nat := 1
/-- Opcode `WRQ = 2`. -/
def WRQ : Nat := 2
/-- Opcode `DATA = 3`. -/
def DATA : Nat := 3
/-- Opcode `ACK = 4`. -/
def ACK : Nat := 4
/-- Opcode `ERROR = 5`. -/
def ERROR : Nat := 5

def NOT_DEFINED : Nat := 0
def FILE_NOT_FOUND : Nat := 1
def ACCESS_VIOLATION : Nat := 2
def DISK_FULL : Nat := 3
def ILLEGAL_OPERATION : Nat := 4
def UNKNOWN_ID : Nat := 5
def FILE_EXISTS : Nat := 6
def NO_USER : Nat := 7

/-- A `std::string` literal as its list of byte values. -/
def strBytes (s : String) : List Nat := s.toList.map Char.toNat

/-- Message `m_errorFileNotFound` (TftpServer.h line 214). -/
def errFileNotFound : List Nat := strBytes ("file not found")
/-- Message `m_errorIllegalOperation` (TftpServer.h line 218). -/
def errIllegalOperation : List Nat := strBytes ("illegal tftp operation")
/-- Message `m_errorUnknownTransferId` (TftpServer.h line 219). -/
def errUnknownTransferId : List Nat := strBytes ("unknown transfer id")
/-- Message `m_errorTimeoutOnSend` (TftpServer.h line 223). -/
def errTimeoutOnSend : List Nat := strBytes ("timeout on send")
/-- Message `m_errorAccessViolation` (TftpServer.h line 216). -/
def errAccessViolation : List Nat := strBytes ("access violation")

/-- The two bytes of a 16-bit big-endian field, as written by
`static_cast<uint8_t>(x >> 8)` and `static_cast<uint8_t>(x)`. -/
def word16 (x : Nat) : List Nat := [x / 256 % 256, x % 256]

/-- Function `readWord` (TftpServer.cpp lines 734-743): two buffer bytes combined as
`(MSB << 8) | LSB`.  Out-of-range positions read as 0 (the buffer is modelled
at its full 516-byte extent, so positions used by the source are in range). -/
def readWordAt (buf : List Nat) (pos : Nat) : Nat :=
  buf.getD pos 0 * 256 + buf.getD (pos + 1) 0

/-- Receiving via `UDP::receivePacket (udpBuffer, ...)`: the received datagram overwrites
the first `incoming.length` bytes of the shared buffer. -/
def overwrite (buf incoming : List Nat) : List Nat :=
  incoming ++ buf.drop incoming.length

/-- Writing `bytes` into the buffer starting at `pos` (e.g. the payload at
`&udpBuffer[4]`, or a packet header at `udpBuffer[0]`). -/
def writeAt (buf : List Nat) (pos : Nat) (bytes : List Nat) : List Nat :=
  buf.take pos ++ bytes ++ buf.drop (pos + bytes.length)

/-- Arduino `constrain(amt, low, high)` as used on `m_timeout`. -/
def constrain (x lo hi : Nat) : Nat :=
  if x < lo then lo else if x > hi then hi else x

/-! ## C1: the OCTET read stream

`handleReadRequest`, OCTET branch (lines 374-392) together with the common
block epilogue (lines 503-521): each iteration of the transfer loop reads up
to 512 bytes from the file into the block buffer (`m_blockSize` is the number
read), marks the transfer complete when fewer than 512 bytes were produced,
increments the block number and sends the block.  `readLoopOctet B n` is the
sequence of `(block number, payload)` pairs emitted for remaining file
contents `B` under the lock-step schedule in which every DATA is acknowledged
(each acknowledgement re-enters the `sendData` branch). -/

def readLoopOctet (B : List Nat) (blockNumber : Nat) : List (Nat × List Nat) :=
  if (B.take 512).length < 512 then [(blockNumber + 1, B.take 512)]
  else (blockNumber + 1, B.take 512) :: readLoopOctet (B.drop 512) (blockNumber + 1)
termination_by B.length
decreasing_by
  simp only [List.length_take, List.length_drop] at *
  omega

/-- The DATA payloads of an OCTET read transaction for file contents `B`. -/
def octetPayloads (B : List Nat) : List (List Nat) :=
  (readLoopOctet B 0).map Prod.snd

theorem readLoopOctet_ne_nil (B : List Nat) (bn : Nat) : readLoopOctet B bn ≠ [] := by
  rw [readLoopOctet]
  split <;> simp

theorem readLoopOctet_flatten (B : List Nat) (bn : Nat) :
    ((readLoopOctet B bn).map Prod.snd).flatten = B := by
  rw [readLoopOctet]
  split
  · rename_i h
    simp only [List.length_take] at h
    simp [List.take_of_length_le (le_of_lt (by omega : B.length < 512))]
  · rename_i h
    simp only [List.map_cons, List.flatten_cons]
    rw [readLoopOctet_flatten (B.drop 512) (bn + 1)]
    exact List.take_append_drop 512 B
termination_by B.length
decreasing_by
  simp only [List.length_take, List.length_drop] at *
  omega

theorem readLoopOctet_dropLast_full (B : List Nat) (bn : Nat) :
    ((((readLoopOctet B bn).map Prod.snd).dropLast).all fun b => b.length == 512) = true := by
  rw [readLoopOctet]
  split
  · simp
  · rename_i h
    simp only [List.length_take] at h
    simp only [List.map_cons]
    have hne : (readLoopOctet (B.drop 512) (bn + 1)).map Prod.snd ≠ [] := by
      simp [readLoopOctet_ne_nil]
    rw [List.dropLast_cons_of_ne_nil hne, List.all_cons]
    rw [readLoopOctet_dropLast_full (B.drop 512) (bn + 1)]
    simp only [List.length_take, Bool.and_true]
    have : min 512 B.length = 512 := by omega
    simp [this]
termination_by B.length
decreasing_by
  simp only [List.length_take, List.length_drop] at *
  omega

theorem getLastD_of_ne_nil {α : Type} (l : List α) (d d₂ : α) (h : l ≠ []) :
    l.getLastD d = l.getLastD d₂ := by
  cases l with
  | nil => exact absurd rfl h
  | cons a t => rw [List.getLastD_cons, List.getLastD_cons]

theorem readLoopOctet_last (B : List Nat) (bn : Nat) :
    (((readLoopOctet B bn).map Prod.snd).getLastD []).length = B.length % 512 := by
  rw [readLoopOctet]
  split
  · rename_i h
    simp only [List.length_take] at h
    have hlt : B.length < 512 := by omega
    simp [List.take_of_length_le (le_of_lt hlt), Nat.mod_eq_of_lt hlt]
  · rename_i h
    simp only [List.length_take] at h
    have hge : 512 ≤ B.length := by omega
    simp only [List.map_cons, List.getLastD_cons]
    have hne : (readLoopOctet (B.drop 512) (bn + 1)).map Prod.snd ≠ [] := by
      simp [readLoopOctet_ne_nil]
    rw [getLastD_of_ne_nil _ _ [] hne, readLoopOctet_last (B.drop 512) (bn + 1)]
    simp only [List.length_drop]
    exact (Nat.mod_eq_sub_mod hge).symm
termination_by B.length
decreasing_by
  simp only [List.length_take, List.length_drop] at *
  omega

theorem readLoopOctet_count (B : List Nat) (bn : Nat) :
    (readLoopOctet B bn).length = B.length / 512 + 1 := by
  rw [readLoopOctet]
  split
  · rename_i h
    simp only [List.length_take] at h
    have : B.length / 512 = 0 := Nat.div_eq_of_lt (by omega)
    simp [this]
  · rename_i h
    simp only [List.length_take] at h
    have hge : 512 ≤ B.length := by omega
    simp only [List.length_cons]
    rw [readLoopOctet_count (B.drop 512) (bn + 1)]
    simp only [List.length_drop]
    rw [Nat.div_eq_sub_div (by omega) hge]
termination_by B.length
decreasing_by
  simp only [List.length_take, List.length_drop] at *
  omega

/-- C1 (confirmed): for every byte string `B` in the file store, the OCTET
read transaction emits DATA blocks whose concatenated payloads equal `B`;
every block before the last carries exactly 512 bytes; the last block carries
`|B| mod 512` bytes (so when `|B| mod 512 = 0`, including `B` empty, the
terminal block is empty and one extra block beyond the `|B| / 512` full ones
is emitted: the block count is `|B| / 512 + 1`). -/
theorem C1_octet_stream (B : List Nat) :
    (octetPayloads B).flatten = B ∧
    ((octetPayloads B).dropLast.all fun b => b.length == 512) = true ∧
    ((octetPayloads B).getLastD []).length = B.length % 512 ∧
    (octetPayloads B).length = B.length / 512 + 1 := by
  refine ⟨readLoopOctet_flatten B 0, readLoopOctet_dropLast_full B 0,
    readLoopOctet_last B 0, ?_⟩
  have := readLoopOctet_count B 0
  simpa [octetPayloads] using this

/-! ## C2: the NETASCII translator

`handleReadRequest`, NETASCII branch (lines 394-493), with the carry flags
declared at lines 357-364.  The three flags live across loop iterations of
the whole transaction: `startNextPacketWithNewLine` and
`startNextPacketWithNull` defer the second byte of a two-byte expansion into
the next block; `dontInsertCarriageReturn` records that a `\r\n` pair was
seen (line 436) — the source never clears it again. -/

structure NAFlags where
  startNextPacketWithNewLine : Bool
  startNextPacketWithNull : Bool
  dontInsertCarriageReturn : Bool
deriving Repr, DecidableEq

structure NAResult where
  block : List Nat
  rest : List Nat
  flags : NAFlags
deriving Repr, DecidableEq

/-- The inner `while (m_blockSize < 512 && m_file.peek() != EOF)` loop
(lines 416-493).  `acc` is the block content built so far (its length is
`m_blockSize`), `noCR` is `dontInsertCarriageReturn`; `m_file.peek()` is the
head of the unread remainder.  The `if (c < 0)` check at line 421 is dead
(`c` is a `uint8_t`) and is omitted. -/
def netasciiFill : List Nat → List Nat → Bool → NAResult
  | [], acc, noCR => ⟨acc, [], ⟨false, false, noCR⟩⟩
  | c :: rest, acc, noCR =>
    if 512 ≤ acc.length then ⟨acc, c :: rest, ⟨false, false, noCR⟩⟩
    else if c = 13 ∧ rest.head? = some 10 then
      -- line 434: \r followed by \n: set the flag, emit the \r
      netasciiFill rest (acc ++ [13]) true
    else if c = 10 ∧ noCR = false then
      -- line 443: replace \n by \r\n (unless the flag is set)
      if acc.length + 1 = 512 then ⟨acc ++ [13], rest, ⟨true, false, noCR⟩⟩
      else netasciiFill rest (acc ++ [13, 10]) noCR
    else if c = 13 ∧ ¬ rest.head? = some 10 then
      -- line 466: replace a lone \r by \r\0
      if acc.length + 1 = 512 then ⟨acc ++ [13], rest, ⟨false, true, noCR⟩⟩
      else netasciiFill rest (acc ++ [13, 0]) noCR
    else netasciiFill rest (acc ++ [c]) noCR

/-- One NETASCII `BUILD` step (lines 394-493): a deferred carry byte opens
the block (lines 397-413), then the fill loop runs. -/
def netasciiBuild (file : List Nat) (fl : NAFlags) : NAResult :=
  if fl.startNextPacketWithNewLine then
    netasciiFill file [10] fl.dontInsertCarriageReturn
  else if fl.startNextPacketWithNull then
    netasciiFill file [0] fl.dontInsertCarriageReturn
  else
    netasciiFill file [] fl.dontInsertCarriageReturn

/-- C2 (code bug): evaluation of the NETASCII translator.  A file whose bytes
are `0D 0A 0A` (`\r\n` followed by a lone `\n`) is emitted as `0D 0A 0A`:
the final lone `\n` is NOT expanded to `\r\n`, because
`dontInsertCarriageReturn` is set when the `\r\n` pair is seen (line 436) and
never cleared afterwards.  The claim (and the comment at line 442,
"replace \n with \r\n as long as it's not already part of \r\n") requires
the wire bytes `0D 0A 0D 0A`.  The second conjunct shows the same lone `\n`
is translated correctly when no `\r\n` precedes it, isolating the unreset
flag as the cause. -/
theorem C2_bug :
    (netasciiBuild ([13, 10, 10]) ⟨false, false, false⟩).block = [13, 10, 10] ∧
    (netasciiBuild ([10]) ⟨false, false, false⟩).block = [13, 10] ∧
    ([13, 10, 10] : List Nat) ≠ [13, 10, 13, 10] := by
  refine ⟨by decide, by decide, by decide⟩

/-! ## The read transaction as a state machine

`handleReadRequest` (lines 303-636).  The loop at lines 367-632 performs, per
iteration, exactly one of: the `sendData` branch (BUILD + SEND, lines
370-529), the received-packet branch (lines 532-592), the timeout branch
(lines 595-631), or nothing.  We drive it with an explicit event per
iteration; `now` is the value `millis()` would return during that iteration.

The `float m_rtt` is modelled as an exact rational; the claims below depend
only on when the estimate is updated, never on rounding. -/

structure RState where
  udpBuffer : List Nat
  bufferCount : Nat
  remotePort : Nat
  transferId : Nat
  blockNumber : Nat
  blockSize : Nat
  fileOpen : Bool
  fileRest : List Nat
  transferMode : List Nat
  sendData : Bool
  receivedFinalAck : Bool
  transferComplete : Bool
  ignoreTime : Bool
  startNextPacketWithNewLine : Bool
  startNextPacketWithNull : Bool
  dontInsertCarriageReturn : Bool
  numberOfRetransmissions : Nat
  timeout : Nat
  rtt : ℚ
  rttCalcStart : Nat
  rttCalcFinish : Nat
  resendStart : Nat
deriving Repr, DecidableEq

inductive RAction where
  | sendPacket (bytes : List Nat) (port : Nat)
  | closeFile
deriving Repr, DecidableEq

/-- The opcode field of a sent packet (first two buffer bytes). -/
def RAction.opcodeOf : RAction → Nat
  | .sendPacket bytes _ => readWordAt bytes 0
  | .closeFile => 0

/-- Function `sendError` (lines 698-731): the ERROR packet is assembled in the shared
buffer (opcode, code, message, terminating zero) and `5 + message length`
bytes are sent.  Returns the mutated buffer and the bytes sent. -/
def sendErrorBuf (buf : List Nat) (code : Nat) (msg : List Nat) : List Nat × List Nat :=
  let packet := word16 ERROR ++ word16 code ++ msg ++ [0]
  let buf2 := writeAt buf 0 packet
  (buf2, buf2.take packet.length)

theorem sendErrorBuf_snd (buf : List Nat) (code : Nat) (msg : List Nat) :
    (sendErrorBuf buf code msg).2 = word16 ERROR ++ word16 code ++ msg ++ [0] := by
  simp only [sendErrorBuf, writeAt, List.take_nil, List.take_zero, Nat.zero_add, List.nil_append]
  exact List.take_left _ _

/-- Function `sendDataPacket` (lines 639-660): the DATA opcode and the block number
are written over the first four buffer bytes and `4 + m_blockSize` bytes are
sent to the current remote address. -/
def sendDataPacket (s : RState) : RState × RAction :=
  let buf := writeAt s.udpBuffer 0 (word16 DATA ++ word16 s.blockNumber)
  ({ s with udpBuffer := buf },
   .sendPacket (buf.take (4 + s.blockSize)) s.remotePort)

/-- The bytes `sendDataPacket` emits from state `s`: the packet a timeout
re-sends is this pure function of the shared buffer, the block number and
the block size. -/
def lastSendBytes (s : RState) : List Nat :=
  (writeAt s.udpBuffer 0 (word16 DATA ++ word16 s.blockNumber)).take (4 + s.blockSize)

/-- Function `updateTimeout` (lines 144-154): exponentially weighted RTT average and
the derived timeout `constrain(2 * rtt, TIMEOUT_MIN, TIMEOUT_MAX)` (the
`uint32_t` assignment truncates toward zero).  The `uint32_t` subtraction
`finish - start` wraps modulo `2^32`. -/
def updateTimeout (rtt : ℚ) (rttCalcStart rttCalcFinish : Nat) : ℚ × Nat :=
  let sample : Nat := (rttCalcFinish + 2 ^ 32 - rttCalcStart) % 2 ^ 32
  let rtt2 := rtt * (9 / 10) + (sample : ℚ) * (1 / 10)
  (rtt2, constrain (Int.toNat ⌊2 * rtt2⌋) TIMEOUT_MIN TIMEOUT_MAX)

/-- The BUILD phase (lines 372-501): fill the block buffer from the file
according to the transfer mode.  In OCTET mode `m_file.read` returns the
number of bytes read, or `-1` when the file is not open (the failed
FILE_NOT_FOUND path leaves it closed); the `int` result lands in the
`uint16_t m_blockSize`, so `-1` becomes 65535 and the `m_blockSize < 0`
check at line 381 can never fire.  An unknown mode sends an
ILLEGAL_OPERATION error — with no `return`, so the block is still sent. -/
def buildBlock (s : RState) : RState × List RAction :=
  if s.transferMode = strBytes ("OCTET") then
    let res : Int := if s.fileOpen then ((s.fileRest.take 512).length : Int) else -1
    let chunk := if s.fileOpen then s.fileRest.take 512 else []
    ({ s with blockSize := (res.emod 65536).toNat,
              udpBuffer := writeAt s.udpBuffer 4 chunk,
              fileRest := if s.fileOpen then s.fileRest.drop 512 else s.fileRest }, [])
  else if s.transferMode = strBytes ("NETASCII") then
    let fileBytes := if s.fileOpen then s.fileRest else []
    let r := netasciiBuild fileBytes
      ⟨s.startNextPacketWithNewLine, s.startNextPacketWithNull, s.dontInsertCarriageReturn⟩
    ({ s with blockSize := r.block.length,
              udpBuffer := writeAt s.udpBuffer 4 r.block,
              fileRest := if s.fileOpen then r.rest else s.fileRest,
              startNextPacketWithNewLine := r.flags.startNextPacketWithNewLine,
              startNextPacketWithNull := r.flags.startNextPacketWithNull,
              dontInsertCarriageReturn := r.flags.dontInsertCarriageReturn }, [])
  else
    let e := sendErrorBuf s.udpBuffer ILLEGAL_OPERATION errIllegalOperation
    ({ s with blockSize := 0, udpBuffer := e.1 }, [.sendPacket e.2 s.remotePort])

/-- The `sendData` branch (lines 370-529): BUILD, then the end-of-file check
(`m_blockSize >= 0` is vacuous on a `uint16_t`), block number increment
(`uint16_t` wrap), SEND, and the bookkeeping at lines 517-527. -/
def sendBranch (s : RState) (now : Nat) : RState × List RAction :=
  let b := buildBlock { s with blockSize := 0 }
  let s1 := b.1
  let s2 := if s1.blockSize < 512 then { s1 with transferComplete := true } else s1
  let s3 := { s2 with blockNumber := (s2.blockNumber + 1) % 65536 }
  let d := sendDataPacket s3
  ({ d.1 with rttCalcStart := now, resendStart := now,
              numberOfRetransmissions := 0, sendData := false, ignoreTime := false },
   b.2 ++ [d.2])

/-- The received-packet branch (lines 532-592).  `checkForPacket` (lines
75-101) stores the datagram in the shared buffer and records the sender in
`m_remoteIpAddress` / `m_remotePort`; the guard at line 540 then compares
`m_remotePort` with `m_tftp.remotePort()` — the very value it was just
assigned from — so it can never fire (`m_transferId`, saved at line 308 for
this purpose, is never consulted). -/
def recvBranch (s : RState) (bytes : List Nat) (port : Nat) (now : Nat) :
    RState × List RAction :=
  let s1 := { s with bufferCount := bytes.length,
                     udpBuffer := overwrite s.udpBuffer bytes,
                     remotePort := port }
  if s1.remotePort ≠ port then
    let e := sendErrorBuf s1.udpBuffer UNKNOWN_ID errUnknownTransferId
    ({ s1 with udpBuffer := e.1 }, [.sendPacket e.2 port])
  else
    let opCode := readWordAt s1.udpBuffer 0
    if opCode = ACK then
      let ackBlockNumber := readWordAt s1.udpBuffer 2
      if ackBlockNumber = s1.blockNumber then
        let s2 :=
          if s1.ignoreTime = false then
            let u := updateTimeout s1.rtt s1.rttCalcStart now
            { s1 with rttCalcFinish := now, rtt := u.1, timeout := u.2 }
          else s1
        let s3 := { s2 with sendData := true }
        let s4 := if s3.transferComplete then { s3 with receivedFinalAck := true } else s3
        (s4, [])
      else (s1, [])
    else (s1, [])

/-- The timeout branch (lines 595-631): re-send via `sendDataPacket`, set
`ignoreTime`, bump the retransmission counter (`uint8_t`), double and clamp
the timeout (`uint32_t`), and abort with a NOT_DEFINED error once the
budget is reached. -/
def timeoutBranch (s : RState) (now : Nat) : RState × List RAction :=
  let d := sendDataPacket s
  let s2 := { d.1 with resendStart := now, ignoreTime := true,
                       numberOfRetransmissions := (d.1.numberOfRetransmissions + 1) % 256 }
  let s3 := { s2 with timeout := constrain (s2.timeout * 2 % 2 ^ 32) TIMEOUT_MIN TIMEOUT_MAX }
  if MAX_RETRANSMISSIONS ≤ s3.numberOfRetransmissions then
    let e := sendErrorBuf s3.udpBuffer NOT_DEFINED errTimeoutOnSend
    ({ s3 with udpBuffer := e.1, sendData := false,
               receivedFinalAck := true, transferComplete := true },
     [d.2, .sendPacket e.2 s3.remotePort])
  else (s3, [d.2])

inductive RInput where
  | pkt (bytes : List Nat) (fromPort : Nat)
  | timedOut
  | idle
deriving Repr, DecidableEq

structure REvent where
  now : Nat
  input : RInput
deriving Repr, DecidableEq

/-- One iteration of the `while (!transferComplete || !receivedFinalAck)`
loop (lines 367-632).  When `sendData` is set the branch at line 370 runs
regardless of pending packets. -/
def readLoopIter (s : RState) (e : REvent) : RState × List RAction :=
  if s.sendData then sendBranch s e.now
  else match e.input with
    | .pkt bytes port => recvBranch s bytes port e.now
    | .timedOut => timeoutBranch s e.now
    | .idle => (s, [])

/-- The transaction loop driven by a finite event schedule; on exit the file
is closed (line 635).  An exhausted schedule truncates the trace. -/
def runRead (s : RState) (evs : List REvent) : List RAction :=
  if s.transferComplete = true ∧ s.receivedFinalAck = true then [RAction.closeFile]
  else
    match evs with
    | [] => []
    | e :: rest =>
      let r := readLoopIter s e
      r.2 ++ runRead r.1 rest

/-- Function `readText` (lines 745-755): scan the buffer from `pos` until a zero
byte, with no bound whatsoever; running past the end of the 516-byte array
is an out-of-bounds access, modelled as `none`.  Returns the scanned bytes
and the position just past the zero terminator. -/
def readTextAux : List Nat → Nat → Option (List Nat × Nat)
  | [], _ => none
  | b :: rest, pos =>
    if b = 0 then some ([], pos + 1)
    else
      match readTextAux rest (pos + 1) with
      | some r => some (b :: r.1, r.2)
      | none => none

def readText (buf : List Nat) (pos : Nat) : Option (List Nat × Nat) :=
  readTextAux (buf.drop pos) pos

/-- The `toupper` loop at lines 320-322 / 177-179 normalises the first TEN
bytes of the mode string, whatever its length. -/
def toUpperByte (c : Nat) : Nat := if 97 ≤ c ∧ c ≤ 122 then c - 32 else c

def upcaseFirst : Nat → List Nat → List Nat
  | 0, m => m
  | _ + 1, [] => []
  | k + 1, c :: rest => toUpperByte c :: upcaseFirst k rest

def upcaseTransferMode (m : List Nat) : List Nat := upcaseFirst 10 m

/-- The string positions the `for (uint8_t i = 0; i < 10; ++i)` loop
accesses: always `0..9`, regardless of the mode string's length. -/
def upcaseLoopIndices : List Nat := List.range 10

/-- The prologue of `handleReadRequest` (lines 303-364): record the peer,
parse filename and mode from the request still sitting in the shared buffer,
uppercase the mode, look the file up, and initialise the loop state
(`processRequest`, lines 106-107, has already set `m_timeout = m_rtt = 50`).
When the file does not exist a FILE_NOT_FOUND error is sent — and, unlike
the open-failure branch at lines 330-340, there is NO `return` (line 347),
so the transfer loop still runs with the file not open.  `none` means the
request could not even be parsed (out-of-bounds scan). -/
def handleReadRequestInit (buffer0 : List Nat) (remotePort : Nat)
    (sd : List Nat → Option (List Nat)) : Option (List RAction × RState) :=
  match readText buffer0 2 with
  | none => none
  | some f =>
    match readText buffer0 f.2 with
    | none => none
    | some m =>
      let base : RState :=
        { udpBuffer := buffer0, bufferCount := 0, remotePort := remotePort,
          transferId := remotePort, blockNumber := 0, blockSize := 0,
          fileOpen := false, fileRest := [],
          transferMode := upcaseTransferMode m.1,
          sendData := true, receivedFinalAck := false, transferComplete := false,
          ignoreTime := false, startNextPacketWithNewLine := false,
          startNextPacketWithNull := false, dontInsertCarriageReturn := false,
          numberOfRetransmissions := 0, timeout := INITIAL_TIMEOUT, rtt := 50,
          rttCalcStart := 0, rttCalcFinish := 0, resendStart := 0 }
      match sd f.1 with
      | some content =>
        some ([], { base with fileOpen := true, fileRest := content })
      | none =>
        let e := sendErrorBuf buffer0 FILE_NOT_FOUND errFileNotFound
        some ([RAction.sendPacket e.2 remotePort], { base with udpBuffer := e.1 })

/-! ## The write transaction

`handleWriteRequest` (lines 157-300).  `fileData` is what has been written
to the SD file so far. -/

structure WState where
  udpBuffer : List Nat
  bufferCount : Nat
  remotePort : Nat
  transferId : Nat
  blockNumber : Nat
  transferMode : List Nat
  fileData : List Nat
  transferComplete : Bool
deriving Repr, DecidableEq

inductive WInput where
  | pkt (bytes : List Nat) (fromPort : Nat)
  | idle
deriving Repr, DecidableEq

/-- One iteration of the `while (!transferComplete)` loop (lines 214-296).
The transfer-ID guard at line 223 has the same dead comparison as the read
side.  On a matching DATA block: the end check at line 243 tests the WHOLE
datagram length `m_bufferCount` against 512, and line 254 writes
`m_bufferCount` bytes starting at `&udpBuffer[4]` — the payload plus four
bytes beyond it. -/
def writeLoopIter (s : WState) (e : WInput) : WState × List RAction :=
  match e with
  | .idle => (s, [])
  | .pkt bytes port =>
    let s1 := { s with bufferCount := bytes.length,
                       udpBuffer := overwrite s.udpBuffer bytes,
                       remotePort := port }
    if s1.remotePort ≠ port then
      let e := sendErrorBuf s1.udpBuffer UNKNOWN_ID errUnknownTransferId
      ({ s1 with udpBuffer := e.1 }, [.sendPacket e.2 port])
    else
      let opCode := readWordAt s1.udpBuffer 0
      if opCode = DATA then
        if s1.blockNumber = readWordAt s1.udpBuffer 2 then
          let s2 := if s1.bufferCount < 512 then { s1 with transferComplete := true } else s1
          if s2.transferMode = strBytes ("OCTET") ∨ s2.transferMode = strBytes ("NETASCII") then
            let written := (s2.udpBuffer.drop 4).take s2.bufferCount
            let s3 := { s2 with fileData := s2.fileData ++ written }
            -- m_file.sync(); sendAck (m_blockNumber++)  (lines 269-272)
            let ackBuf := writeAt s3.udpBuffer 0 (word16 ACK ++ word16 s3.blockNumber)
            ({ s3 with udpBuffer := ackBuf,
                       blockNumber := (s3.blockNumber + 1) % 65536 },
             [.sendPacket (ackBuf.take 4) port])
          else
            let e := sendErrorBuf s2.udpBuffer ILLEGAL_OPERATION errIllegalOperation
            ({ s2 with udpBuffer := e.1 }, [.sendPacket e.2 port])
        else (s1, [])
      else (s1, [])

/-- A mid-transaction write state: peer (and transfer ID) 1000, expecting
block 1, OCTET mode, buffer holding stale bytes (7) from earlier traffic. -/
def midWriteState : WState :=
  { udpBuffer := List.replicate 516 7, bufferCount := 0, remotePort := 1000,
    transferId := 1000, blockNumber := 1, transferMode := strBytes ("OCTET"),
    fileData := [], transferComplete := false }

/-- C4 (code bug): evaluation of the write-side DATA handler at two failing
inputs.  (1) A matching DATA block 1 with 2-byte payload `41 42` (6-byte
datagram): the file receives `41 42 07 07 07 07` — the payload plus four
stale buffer bytes — because line 254 writes `m_bufferCount` (the datagram
length) bytes from `&udpBuffer[4]`; the claim requires exactly `41 42`.
(2) A matching DATA block 1 with a 508-byte payload (512-byte datagram) does
NOT mark the transfer terminal (line 243 compares the datagram length, not
the payload length, with 512), although the claim says a payload shorter
than 512 is terminal. -/
theorem C4_bug :
    (writeLoopIter midWriteState (.pkt ([0, 3, 0, 1, 65, 66]) 1000)).1.fileData
        = [65, 66, 7, 7, 7, 7] ∧
    (writeLoopIter midWriteState (.pkt ([0, 3, 0, 1, 65, 66]) 1000)).1.fileData ≠ [65, 66] ∧
    (writeLoopIter midWriteState (.pkt ([0, 3, 0, 1, 65, 66]) 1000)).1.transferComplete = true ∧
    (writeLoopIter midWriteState (.pkt ([0, 3, 0, 1] ++ List.replicate 508 65) 1000)).1.transferComplete
        = false ∧
    (List.replicate 508 (65 : Nat)).length < 512 := by
  refine ⟨by decide, by decide, by decide, by decide, by decide⟩

/-! ## C3, C6, C8: concrete transaction runs -/

/-- An RRQ datagram for filename `g` (0x67... here byte 103) in mode
`octet` (lower case), followed by zeroed stale buffer bytes. -/
def rrqMissingBuf : List Nat :=
  [0, 1, 103, 0, 111, 99, 116, 101, 116, 0] ++ List.replicate 506 0

/-- C3 (code bug): an RRQ for a file the store does not have.  The init
sends the single FILE_NOT_FOUND error — but, the `return` being missing at
line 347, the transfer loop still runs: the very first iteration reads from
the closed file (`-1` lands in the `uint16_t m_blockSize` as 65535, which
neither the dead `< 0` check at line 381 nor the `< 512` end-of-file check
at line 504 catches) and sends a DATA packet for block 1.  The claim says no
DATA packet is ever sent and the transaction terminates after the error. -/
theorem C3_bug :
    (handleReadRequestInit rrqMissingBuf 1000 (fun _ => none)).map (fun r => r.1) =
      some [RAction.sendPacket (word16 ERROR ++ word16 FILE_NOT_FOUND ++ errFileNotFound ++ [0]) 1000] ∧
    (handleReadRequestInit rrqMissingBuf 1000 (fun _ => none)).map
        (fun r => (runRead r.2 [⟨0, .idle⟩]).map RAction.opcodeOf) = some [DATA] := by
  refine ⟨by decide, by decide⟩

/-- An RRQ datagram for filename `f` (byte 102) in mode `OCTET`. -/
def rrqSmallFileBuf : List Nat :=
  [0, 1, 102, 0, 79, 67, 84, 69, 84, 0] ++ List.replicate 506 0

/-- C6 (counterexample): the re-sent DATA packet is NOT byte-identical to
the original when a packet was received in between.  File `f` holds
`41 41 41`; DATA block 1 goes out as `00 03 00 01 41 41 41`.  A 5-byte
packet then arrives from port 2000 (ignored: wrong opcode — and the dead
transfer-ID guard lets it through); `receivePacket` stores it in the SHARED
buffer, overwriting the payload.  The subsequent timeout re-sends
`00 03 00 01 58 41 41` — same block number and length, different bytes (and,
`m_remotePort` having been re-pointed, it goes to port 2000). -/
theorem C6_counterexample :
    (handleReadRequestInit rrqSmallFileBuf 1000
        (fun n => if n = [102] then some [65, 65, 65] else none)).map
      (fun r => r.1 ++ runRead r.2
        [⟨0, .idle⟩, ⟨1, .pkt ([0, 5, 0, 0, 88]) 2000⟩, ⟨60, .timedOut⟩]) =
      some [RAction.sendPacket ([0, 3, 0, 1, 65, 65, 65]) 1000,
            RAction.sendPacket ([0, 3, 0, 1, 88, 65, 65]) 2000] ∧
    ([0, 3, 0, 1, 65, 65, 65] : List Nat) ≠ [0, 3, 0, 1, 88, 65, 65] := by
  refine ⟨by decide, by decide⟩

/-- A mid-transaction read state: peer (and transfer ID) 1000, waiting for
the ACK of the final block 1 already sent. -/
def idleReadState : RState :=
  { udpBuffer := List.replicate 516 0, bufferCount := 0, remotePort := 1000,
    transferId := 1000, blockNumber := 1, blockSize := 3, fileOpen := true,
    fileRest := [], transferMode := strBytes ("OCTET"), sendData := false,
    receivedFinalAck := false, transferComplete := true, ignoreTime := false,
    startNextPacketWithNewLine := false, startNextPacketWithNull := false,
    dontInsertCarriageReturn := false, numberOfRetransmissions := 0,
    timeout := 50, rtt := 50, rttCalcStart := 0, rttCalcFinish := 0,
    resendStart := 0 }

/-- C8 (code bug): a mid-transaction packet from port 2000 while the peer is
port 1000 elicits NO UNKNOWN_ID error in either transaction direction, and
the state does change: `checkForPacket` assigns
`m_remotePort = m_tftp.remotePort()` (line 85) and the guards at lines 540 /
223 then compare `m_remotePort != m_tftp.remotePort()` — always false — so
the intruder's packet is processed as the peer's and `m_remotePort` is left
re-pointed at the intruder (`m_transferId`, saved for this purpose, is never
consulted).  The claim requires exactly one UNKNOWN_ID error to the other
port and an unchanged transaction state. -/
theorem C8_bug :
    idleReadState.remotePort = 1000 ∧
    (readLoopIter idleReadState ⟨7, .pkt ([0, 4, 0, 9]) 2000⟩).2 = [] ∧
    (readLoopIter idleReadState ⟨7, .pkt ([0, 4, 0, 9]) 2000⟩).1.remotePort = 2000 ∧
    midWriteState.remotePort = 1000 ∧
    (writeLoopIter midWriteState (.pkt ([0, 3, 0, 9]) 2000)).2 = [] ∧
    (writeLoopIter midWriteState (.pkt ([0, 3, 0, 9]) 2000)).1.remotePort = 2000 := by
  refine ⟨by decide, by decide, by decide, by decide, by decide, by decide⟩

/-! ## C5, C6 (amended), C7: properties of the wait/timeout logic -/

theorem writeAt_zero (buf p : List Nat) : writeAt buf 0 p = p ++ buf.drop p.length := by
  simp [writeAt]

theorem writeAt_zero_idem (buf p : List Nat) :
    writeAt (writeAt buf 0 p) 0 p = writeAt buf 0 p := by
  rw [writeAt_zero, writeAt_zero, List.drop_left]

/-- C5 (confirmed): when the retransmission counter for the current block
reaches `MAX_RETRANSMISSIONS` (the `uint8_t` counter is incremented to
`(n + 1) % 256` on this timeout, line 610, and tested at line 621), the
timeout branch ends with an ERROR packet of code NOT_DEFINED carrying the
message "timeout on send" sent to the current peer, the loop-exit flags are
set, and the transaction then closes the file whatever else is scheduled. -/
theorem C5_abort (s : RState) (now : Nat)
    (h1 : s.sendData = false)
    (h2 : MAX_RETRANSMISSIONS ≤ (s.numberOfRetransmissions + 1) % 256) :
    (readLoopIter s ⟨now, .timedOut⟩).2.getLast? =
      some (.sendPacket (word16 ERROR ++ word16 NOT_DEFINED ++ errTimeoutOnSend ++ [0])
            s.remotePort) ∧
    (readLoopIter s ⟨now, .timedOut⟩).1.transferComplete = true ∧
    (readLoopIter s ⟨now, .timedOut⟩).1.receivedFinalAck = true ∧
    ∀ evs, runRead (readLoopIter s ⟨now, .timedOut⟩).1 evs = [RAction.closeFile] := by
  have hiter : readLoopIter s ⟨now, .timedOut⟩ = timeoutBranch s now := by
    simp [readLoopIter, h1]
  rw [hiter]
  refine ⟨?_, ?_, ?_, ?_⟩
  · simp [timeoutBranch, sendDataPacket, sendErrorBuf_snd, h2]
  · simp [timeoutBranch, sendDataPacket, h2]
  · simp [timeoutBranch, sendDataPacket, h2]
  · intro evs
    have hc : (timeoutBranch s now).1.transferComplete = true ∧
        (timeoutBranch s now).1.receivedFinalAck = true := by
      simp [timeoutBranch, sendDataPacket, h2]
    cases evs <;> simp [runRead, hc.1, hc.2]

/-- C5 witness. -/
theorem C5_abort_witness :
    runRead (readLoopIter { idleReadState with numberOfRetransmissions := 7 }
        ⟨0, .timedOut⟩).1 [] = [RAction.closeFile] :=
  (C5_abort { idleReadState with numberOfRetransmissions := 7 } 0 rfl (by decide)).2.2.2 []

/-- C6 (amended): a timeout re-sends a DATA packet whose bytes are the pure
function `lastSendBytes` of the current shared buffer, block number and
block size, and does not change the block number; when the transaction is
not aborted, `lastSendBytes` is itself unchanged by the timeout step, so
consecutive timeouts re-send byte-identical packets.  (The original send
from the `sendData` branch likewise emits `lastSendBytes` of the resulting
state — the final conjunct — so the first re-send is byte-identical to the
original exactly when nothing was received into the shared buffer in
between; `C6_counterexample` shows a received packet breaking this.) -/
theorem C6_amended :
    (∀ (s : RState) (now : Nat), s.sendData = false →
      (readLoopIter s ⟨now, .timedOut⟩).1.blockNumber = s.blockNumber ∧
      (readLoopIter s ⟨now, .timedOut⟩).2.head? =
        some (.sendPacket (lastSendBytes s) s.remotePort) ∧
      (¬ MAX_RETRANSMISSIONS ≤ (s.numberOfRetransmissions + 1) % 256 →
        lastSendBytes (readLoopIter s ⟨now, .timedOut⟩).1 = lastSendBytes s)) ∧
    (∀ (s : RState) (now : Nat) (input : RInput), s.sendData = true →
      (readLoopIter s ⟨now, input⟩).2.getLast? =
        some (.sendPacket (lastSendBytes (readLoopIter s ⟨now, input⟩).1)
              (readLoopIter s ⟨now, input⟩).1.remotePort)) := by
  constructor
  · intro s now h1
    have hiter : readLoopIter s ⟨now, .timedOut⟩ = timeoutBranch s now := by
      simp [readLoopIter, h1]
    rw [hiter]
    by_cases h2 : MAX_RETRANSMISSIONS ≤ (s.numberOfRetransmissions + 1) % 256
    · refine ⟨?_, ?_, fun hc => absurd h2 hc⟩
      · simp [timeoutBranch, sendDataPacket, h2]
      · simp [timeoutBranch, sendDataPacket, lastSendBytes, h2]
    · refine ⟨?_, ?_, fun _ => ?_⟩
      · simp [timeoutBranch, sendDataPacket, h2]
      · simp [timeoutBranch, sendDataPacket, lastSendBytes, h2]
      · simp only [timeoutBranch, sendDataPacket]
        simp [h2, lastSendBytes, writeAt_zero_idem]
  · intro s now input h1
    have hiter : readLoopIter s ⟨now, input⟩ = sendBranch s now := by
      simp [readLoopIter, h1]
    rw [hiter]
    simp [sendBranch, sendDataPacket, lastSendBytes, writeAt_zero_idem]

/-- C6 witness (for the amended statement). -/
theorem C6_amended_witness :
    (readLoopIter idleReadState ⟨0, .timedOut⟩).1.blockNumber = idleReadState.blockNumber :=
  (C6_amended.1 idleReadState 0 rfl).1

/-- C7 (confirmed): Karn-style RTT sampling.  (1) Once `ignoreTime` is set,
a received packet — matching ACK or not — leaves the RTT estimate and the
derived timeout unchanged and the flag set.  (2) Every timeout
(retransmission) sets `ignoreTime`.  (3) Sending the next block clears it
(line 527).  (4) A matching ACK received with `ignoreTime` clear updates the
RTT estimate by the `updateTimeout` rule (lines 144-154). -/
theorem C7_rtt_sampling :
    (∀ (s : RState) (bytes : List Nat) (port now : Nat),
      s.sendData = false → s.ignoreTime = true →
      (readLoopIter s ⟨now, .pkt bytes port⟩).1.rtt = s.rtt ∧
      (readLoopIter s ⟨now, .pkt bytes port⟩).1.timeout = s.timeout ∧
      (readLoopIter s ⟨now, .pkt bytes port⟩).1.ignoreTime = true) ∧
    (∀ (s : RState) (now : Nat), s.sendData = false →
      (readLoopIter s ⟨now, .timedOut⟩).1.ignoreTime = true) ∧
    (∀ (s : RState) (now : Nat) (input : RInput), s.sendData = true →
      (readLoopIter s ⟨now, input⟩).1.ignoreTime = false) ∧
    (∀ (s : RState) (bytes : List Nat) (port now : Nat),
      s.sendData = false → s.ignoreTime = false →
      readWordAt (overwrite s.udpBuffer bytes) 0 = ACK →
      readWordAt (overwrite s.udpBuffer bytes) 2 = s.blockNumber →
      (readLoopIter s ⟨now, .pkt bytes port⟩).1.rtt =
        s.rtt * (9 / 10) +
          ((((now + 2 ^ 32 - s.rttCalcStart) % 2 ^ 32 : Nat) : ℚ)) * (1 / 10)) := by
  refine ⟨?_, ?_, ?_, ?_⟩
  · intro s bytes port now h1 h2
    have hiter : readLoopIter s ⟨now, .pkt bytes port⟩ = recvBranch s bytes port now := by
      simp [readLoopIter, h1]
    rw [hiter]
    simp only [recvBranch]
    simp [h2]
    split
    · split
      · split <;> exact ⟨rfl, rfl, rfl⟩
      · simp [h2]
    · simp
  · intro s now h1
    have hiter : readLoopIter s ⟨now, .timedOut⟩ = timeoutBranch s now := by
      simp [readLoopIter, h1]
    rw [hiter]
    simp only [timeoutBranch, sendDataPacket]
    split <;> rfl
  · intro s now input h1
    have hiter : readLoopIter s ⟨now, input⟩ = sendBranch s now := by
      simp [readLoopIter, h1]
    rw [hiter]
    rfl
  · intro s bytes port now h1 h2 h3 h4
    have hiter : readLoopIter s ⟨now, .pkt bytes port⟩ = recvBranch s bytes port now := by
      simp [readLoopIter, h1]
    rw [hiter]
    simp only [recvBranch]
    simp [h2, h3, h4, updateTimeout]
    split <;> rfl

/-- C7 witness. -/
theorem C7_rtt_sampling_witness :
    (readLoopIter { idleReadState with ignoreTime := true }
        ⟨3, .pkt ([0, 4, 0, 1]) 1000⟩).1.rtt =
      ({ idleReadState with ignoreTime := true } : RState).rtt :=
  (C7_rtt_sampling.1 { idleReadState with ignoreTime := true } [0, 4, 0, 1] 1000 3 rfl rfl).1

/-! ## C9: request parsing -/

inductive Dispatch where
  | readReq (fileName transferMode : List Nat) (endPos : Nat)
  | writeReq (fileName transferMode : List Nat) (endPos : Nat)
  | illegalOp
  | outOfBounds
deriving Repr, DecidableEq

/-- Dispatcher `processRequest` (lines 104-141) plus the parsing prologue of the
selected handler (lines 313-321 / 170-178): the first word selects the
handler; an RRQ/WRQ then has its filename and mode scanned out of the buffer
by `readText` and the mode uppercased.  `illegalOp` is the only error path:
it is taken solely on a bad opcode.  `outOfBounds` marks a `readText` scan
running off the end of the 516-byte array. -/
def dispatchRequest (buffer0 : List Nat) : Dispatch :=
  let opCode := readWordAt buffer0 0
  if opCode = RRQ then
    match readText buffer0 2 with
    | none => .outOfBounds
    | some f =>
      match readText buffer0 f.2 with
      | none => .outOfBounds
      | some m => .readReq f.1 (upcaseTransferMode m.1) m.2
  else if opCode = WRQ then
    match readText buffer0 2 with
    | none => .outOfBounds
    | some f =>
      match readText buffer0 f.2 with
      | none => .outOfBounds
      | some m => .writeReq f.1 (upcaseTransferMode m.1) m.2
  else .illegalOp

/-- A 4-byte RRQ datagram `00 01 41 42` whose filename field is not
zero-terminated within the received bytes, sitting in front of stale buffer
contents `43 00 4F 43 54 45 54 00 ...` from earlier traffic. -/
def truncatedRrq : List Nat :=
  [0, 1, 65, 66] ++ ([67, 0, 79, 67, 84, 69, 84, 0] ++ List.replicate 504 9)

/-- C9 (code bug): `readText` (lines 745-755) scans for a zero byte with no
bound at all.  (1) For the 4-byte truncated RRQ the parse does not fail:
it runs past the received bytes into the stale buffer, yielding the filename
`41 42 43` (the `43` is a stale byte at index 4, beyond the 4 received
bytes) and ending at position 12 > 4, and a transfer is started — no
MALFORMED/ILLEGAL_OPERATION reply exists for truncated fields.  (2) If no
zero byte is present in the entire 516-byte array, the scan runs off the
array: an out-of-bounds read.  The claim requires decoding to fail with a
single ILLEGAL_OPERATION answer and parsing never to read beyond the
received bytes. -/
theorem C9_bug :
    dispatchRequest truncatedRrq = .readReq [65, 66, 67] (strBytes ("OCTET")) 12 ∧
    (4 : Nat) < 12 ∧
    dispatchRequest ([0, 1] ++ List.replicate 514 65) = .outOfBounds := by
  refine ⟨by decide, by decide, by decide⟩

/-! ## C10: transfer-mode normalisation -/

/-- The check `m_transferMode.compare ("OCTET") == 0 || ... ("NETASCII") == 0` after
the uppercase loop: the set of modes the server recognises and serves
(lines 375, 395 / 250-251). -/
def recognizedMode (m : List Nat) : Bool :=
  (upcaseTransferMode m == strBytes ("OCTET")) ||
  (upcaseTransferMode m == strBytes ("NETASCII"))

/-- C10 (counterexample): the mode string `octet` is recognised and served,
yet the normalisation loop `for (uint8_t i = 0; i < 10; ++i)` touches
positions `0..9` — positions 5 through 9 lie beyond the five characters of
the mode string, contradicting "the mode-normalisation step accesses only
characters within the mode string". -/
theorem C10_counterexample :
    recognizedMode (strBytes ("octet")) = true ∧
    ¬ ∀ i ∈ upcaseLoopIndices, i < (strBytes ("octet")).length := by
  refine ⟨by decide, by decide⟩

theorem upcaseFirst_of_le (m : List Nat) (k : Nat) (h : m.length ≤ k) :
    upcaseFirst k m = m.map toUpperByte := by
  induction m generalizing k with
  | nil => cases k <;> rfl
  | cons c rest ih =>
    cases k with
    | zero => simp at h
    | succ k =>
      simp only [upcaseFirst, List.map_cons]
      rw [ih k (by simpa using h)]

/-- C10 (amended): every case mixture of `OCTET` or `NETASCII` is recognised
— both tokens are shorter than ten characters, so uppercasing the first ten
bytes normalises them fully — but the normalisation loop unconditionally
accesses positions `0..9` of the mode string, which lie beyond its end for
any mode shorter than ten characters (`C10_counterexample`). -/
theorem C10_amended :
    (∀ m : List Nat, m.map toUpperByte = strBytes ("OCTET") →
      recognizedMode m = true) ∧
    (∀ m : List Nat, m.map toUpperByte = strBytes ("NETASCII") →
      recognizedMode m = true) ∧
    upcaseLoopIndices = List.range 10 := by
  refine ⟨?_, ?_, rfl⟩
  · intro m h
    have hm : m.length ≤ 10 := by
      have := congrArg List.length h
      simp only [List.length_map] at this
      rw [this]
      decide
    simp [recognizedMode, upcaseTransferMode, upcaseFirst_of_le m 10 hm, h]
  · intro m h
    have hm : m.length ≤ 10 := by
      have := congrArg List.length h
      simp only [List.length_map] at this
      rw [this]
      decide
    simp [recognizedMode, upcaseTransferMode, upcaseFirst_of_le m 10 hm, h]

/-- C10 witness (for the amended statement). -/
theorem C10_amended_witness : recognizedMode (strBytes ("oCtEt")) = true :=
  C10_amended.1 (strBytes ("oCtEt")) (by decide)

end Tftp
